import Mathlib

/-!
Verification of the apple-jwt configuration-resolution and token-building
core, shallowly embedded from src/config.ts (ConfigManager), the generator
half of that file (AppleJWTGenerator), src/cli.ts (CLI.runCommandLine) and
the record types in src/types.ts. Filesystem access and the external
signing primitive are modelled as explicit function parameters; JavaScript
string truthiness (empty string is falsy) and object-spread field merging
are modelled explicitly.
-/

namespace AppleJWT

/-- Mirrors Partial of JWTConfig from src/types.ts: each field optionally set. -/
structure Fragment where
  keyId : Option String
  teamId : Option String
  privateKey : Option String
  expiresIn : Option Int
  algorithm : Option String
deriving DecidableEq

/-- Mirrors ConfigFile from src/types.ts. -/
structure ConfigFile where
  keyId : Option String
  teamId : Option String
  privateKeyPath : Option String
  expiresIn : Option Int
  algorithm : Option String
deriving DecidableEq

/-- The six environment variables consumed, each possibly unset. -/
structure EnvMap where
  appleKeyId : Option String
  appleTeamId : Option String
  applePrivateKey : Option String
  applePrivateKeyPath : Option String
  appleJwtExpiresIn : Option String
  appleJwtAlgorithm : Option String
deriving DecidableEq

/-- Environment model: existence checks, file reads (which may fail with a
stringified reason, as the catch branch stringifies the thrown error), and
resolution of a relative path against the current working directory. -/
structure Fs where
  pathExists : String → Bool
  readFile : String → Except String String
  resolveAbs : String → String

/-- JavaScript truthiness of an optional string: unset and the empty string
are both falsy. -/
def truthy : Option String → Bool
  | none => false
  | some s => s != ""

/-- Object-spread / Object.assign field merge: the left (higher-precedence)
value is taken when set, otherwise the right one. -/
def firstSet : Option α → Option α → Option α
  | some x, _ => some x
  | none, b => b

@[simp] theorem firstSet_some (x : α) (b : Option α) : firstSet (some x) b = some x := rfl

@[simp] theorem firstSet_none_left (b : Option α) : firstSet (none : Option α) b = b := rfl

@[simp] theorem firstSet_none_right (a : Option α) : firstSet a none = a := by
  cases a <;> rfl

/-- Digit-run value, used by the parseInt model. -/
def digitsToNat (l : List Char) : Nat :=
  l.foldl (fun a c => a * 10 + (c.toNat - 48)) 0

def isSpaceChar (c : Char) : Bool :=
  c == ' ' || c == '\t' || c == '\n' || c == '\r'

/-- Model of JavaScript parseInt(s, 10): skip leading whitespace, an
optional sign, then the longest run of leading decimal digits; the NaN
result (no digit found) is modelled as none. -/
def parseIntJS (s : String) : Option Int :=
  let core : List Char → Option Int := fun l =>
    let ds := l.takeWhile Char.isDigit
    if ds.isEmpty then none else some ((digitsToNat ds : Nat) : Int)
  match s.data.dropWhile isSpaceChar with
  | '-' :: rest => (core rest).map (fun n => -n)
  | '+' :: rest => core rest
  | l => core l

/-- ConfigManager.validateEnvironmentVariables (src/config.ts lines 57-85):
collapse the raw environment into a fragment. A falsy (unset or empty)
variable contributes nothing; the direct private-key variable shadows the
path variable; a path variable whose resolved file does not exist is
silently ignored; a non-numeric expiration variable is omitted. -/
def validateEnvironmentVariables (fs : Fs) (e : EnvMap) : Fragment :=
  let keyId := if truthy e.appleKeyId then e.appleKeyId else none
  let teamId := if truthy e.appleTeamId then e.appleTeamId else none
  let privateKey :=
    if truthy e.applePrivateKey then e.applePrivateKey
    else if truthy e.applePrivateKeyPath then
      let keyPath := fs.resolveAbs (e.applePrivateKeyPath.getD "")
      if fs.pathExists keyPath then some keyPath else none
    else none
  let expiresIn :=
    if truthy e.appleJwtExpiresIn then parseIntJS (e.appleJwtExpiresIn.getD "")
    else none
  let algorithm := if truthy e.appleJwtAlgorithm then e.appleJwtAlgorithm else none
  ⟨keyId, teamId, privateKey, expiresIn, algorithm⟩

/-- ConfigManager.resolveConfig (src/config.ts lines 29-55): spread of
defaults, then the config file, then the CLI options, with the privateKey
field overridden last by the separately computed value. Throws when the
CLI fragment has no truthy privateKey, the config file names a key path,
and the resolved path does not exist. -/
def resolveConfig (fs : Fs) (cliOptions : Fragment) (configFile : Option ConfigFile) :
    Except String Fragment :=
  let cfPath : Option String :=
    match configFile with
    | some cf => cf.privateKeyPath
    | none => none
  let pkStep : Except String (Option String) :=
    if !(truthy cliOptions.privateKey) && truthy cfPath then
      let keyPath := fs.resolveAbs (cfPath.getD "")
      if fs.pathExists keyPath then Except.ok (some keyPath)
      else Except.error ("Private key file not found: " ++ cfPath.getD "")
    else Except.ok cliOptions.privateKey
  match pkStep with
  | Except.error e => Except.error e
  | Except.ok privateKey =>
    let cfFrag : Fragment :=
      match configFile with
      | some cf => ⟨cf.keyId, cf.teamId, none, cf.expiresIn, cf.algorithm⟩
      | none => ⟨none, none, none, none, none⟩
    Except.ok
      { keyId := firstSet cliOptions.keyId cfFrag.keyId
        teamId := firstSet cliOptions.teamId cfFrag.teamId
        privateKey := privateKey
        expiresIn := firstSet cliOptions.expiresIn (firstSet cfFrag.expiresIn (some 180))
        algorithm := firstSet cliOptions.algorithm (firstSet cfFrag.algorithm (some "ES256")) }

/-- Object.assign(finalConfig, envConfig) in CLI.runCommandLine: every field
present in the environment fragment overwrites the base. -/
def assignFrag (base env : Fragment) : Fragment :=
  { keyId := firstSet env.keyId base.keyId
    teamId := firstSet env.teamId base.teamId
    privateKey := firstSet env.privateKey base.privateKey
    expiresIn := firstSet env.expiresIn base.expiresIn
    algorithm := firstSet env.algorithm base.algorithm }

/-- CLI.runCommandLine configuration resolution (src/cli.ts lines 129-143):
extract the environment fragment, resolve the CLI options with a null
config file, then assign the environment fragment over the result. -/
def runCommandLineMerge (fs : Fs) (envm : EnvMap) (cli : Fragment) :
    Except String Fragment :=
  let envConfig := validateEnvironmentVariables fs envm
  match resolveConfig fs cli none with
  | Except.error e => Except.error e
  | Except.ok fc => Except.ok (assignFrag fc envConfig)

theorem resolveConfig_none (fs : Fs) (cli : Fragment) :
    resolveConfig fs cli none =
      Except.ok
        { keyId := cli.keyId
          teamId := cli.teamId
          privateKey := cli.privateKey
          expiresIn := firstSet cli.expiresIn (some 180)
          algorithm := firstSet cli.algorithm (some "ES256") } := by
  simp [resolveConfig, truthy]

theorem runCommandLineMerge_eq (fs : Fs) (envm : EnvMap) (cli : Fragment) :
    runCommandLineMerge fs envm cli =
      Except.ok
        (assignFrag
          { keyId := cli.keyId
            teamId := cli.teamId
            privateKey := cli.privateKey
            expiresIn := firstSet cli.expiresIn (some 180)
            algorithm := firstSet cli.algorithm (some "ES256") }
          (validateEnvironmentVariables fs envm)) := by
  simp [runCommandLineMerge, resolveConfig_none]

/-- Mirrors JWTConfig from src/types.ts: the three required string fields
and the two optional fields. -/
structure JWTConfig where
  keyId : String
  teamId : String
  privateKey : String
  expiresIn : Option Int
  algorithm : Option String
deriving DecidableEq

/-- The generator's internal configuration after the constructor spread of
defaults (expiresIn 180, algorithm ES256) under the incoming config. -/
structure GenConfig where
  keyId : String
  teamId : String
  privateKey : String
  expiresIn : Int
  algorithm : String
deriving DecidableEq

/-- Mirrors JWTPayload from src/types.ts. -/
structure JWTPayload where
  iss : String
  iat : Int
  exp : Int
deriving DecidableEq

/-- Mirrors JWTHeader from src/types.ts. -/
structure JWTHeader where
  alg : String
  kid : String
deriving DecidableEq

/-- The AppleJWTGenerator constructor: spread the incoming config over the
two defaults. -/
def mkGenConfig (c : JWTConfig) : GenConfig :=
  { keyId := c.keyId
    teamId := c.teamId
    privateKey := c.privateKey
    expiresIn := c.expiresIn.getD 180
    algorithm := c.algorithm.getD "ES256" }

/-- View of a full JWTConfig as a fragment, as validateConfig receives it. -/
def toFragment (c : JWTConfig) : Fragment :=
  ⟨some c.keyId, some c.teamId, some c.privateKey, c.expiresIn, c.algorithm⟩

/-- AppleJWTGenerator.isFilePath (generator source lines 112-114): contains a
slash or backslash, or ends in .pem or .p8. String containment and ending
are modelled over the character list. -/
def isFilePath (input : String) : Bool :=
  input.data.contains '/' || input.data.contains '\\' ||
    List.isSuffixOf ".pem".data input.data || List.isSuffixOf ".p8".data input.data

/-- AppleJWTGenerator.getPrivateKey (generator source lines 116-131): path-like
values are read from the filesystem, with distinct not-found and read-failure
errors; anything else is returned verbatim as raw key content. -/
def getPrivateKey (fs : Fs) (g : GenConfig) : Except String String :=
  if isFilePath g.privateKey then
    if !(fs.pathExists g.privateKey) then
      Except.error ("Private key file not found: " ++ g.privateKey)
    else
      match fs.readFile g.privateKey with
      | Except.ok content => Except.ok content
      | Except.error e => Except.error ("Failed to read private key file: " ++ e)
  else
    Except.ok g.privateKey

/-- AppleJWTGenerator.createPayload (generator source lines 133-142): one clock
reading, passed in as the parameter now. -/
def createPayload (now : Int) (g : GenConfig) : JWTPayload :=
  { iss := g.teamId
    iat := now
    exp := now + g.expiresIn * (24 * 60 * 60) }

/-- AppleJWTGenerator.createHeader (generator source lines 144-149). -/
def createHeader (g : GenConfig) : JWTHeader :=
  { alg := g.algorithm
    kid := g.keyId }

/-- The external signing primitive: payload, key material, algorithm name,
header; may fail. -/
def Signer : Type :=
  JWTPayload → String → String → JWTHeader → Except String String

/-- AppleJWTGenerator.validateConfig (generator source lines 175-188):
short-circuiting truthiness checks in a fixed order, then the range check on
a present expiresIn. -/
def validateConfig (c : Fragment) : Except String Unit :=
  if !(truthy c.keyId) then Except.error "Apple Key ID is required"
  else if !(truthy c.teamId) then Except.error "Apple Team ID is required"
  else if !(truthy c.privateKey) then Except.error "Private key is required"
  else
    match c.expiresIn with
    | some n =>
      if n ≤ 0 ∨ 365 < n then Except.error "Expiration days must be between 1 and 365"
      else Except.ok ()
    | none => Except.ok ()

/-- Whether a present expiresIn value fails the range check. -/
def expOutOfRange (c : Fragment) : Bool :=
  match c.expiresIn with
  | some n => decide (n ≤ 0 ∨ 365 < n)
  | none => false

/-- The body of the try block of AppleJWTGenerator.generate (generator source
lines 151-173): resolve the key, build payload and header, sign. -/
def generateInner (fs : Fs) (sg : Signer) (now : Int) (g : GenConfig) :
    Except String String :=
  match getPrivateKey fs g with
  | Except.error e => Except.error e
  | Except.ok pk => sg (createPayload now g) pk g.algorithm (createHeader g)

/-- AppleJWTGenerator.generate: the catch branch rethrows with the
generation-stage wrapper message. -/
def generate (fs : Fs) (sg : Signer) (now : Int) (g : GenConfig) :
    Except String String :=
  match generateInner fs sg now g with
  | Except.ok t => Except.ok t
  | Except.error e => Except.error ("JWT generation failed: " ++ e)

/-- generateAppleJWT (generator source lines 191-195): validate, construct the
generator, generate. The validation call sits outside the try block of
generate. -/
def generateAppleJWT (fs : Fs) (sg : Signer) (now : Int) (c : JWTConfig) :
    Except String String :=
  match validateConfig (toFragment c) with
  | Except.error e => Except.error e
  | Except.ok _ => generate fs sg now (mkGenConfig c)

/-! Concrete environments and configurations used to instantiate theorems. -/

/-- A filesystem with no files at all. -/
def fsNone : Fs := ⟨fun _ => false, fun _ => Except.error "ENOENT", id⟩

/-- A filesystem holding exactly the file k.pem, whose read fails. -/
def fsReadDenied : Fs :=
  ⟨fun p => p == "k.pem", fun _ => Except.error "Error: Permission denied", id⟩

/-- A signing primitive that always succeeds with a fixed compact token. -/
def signerOk : Signer := fun _ _ _ _ => Except.ok "h.p.s"

/-- A signing primitive that always rejects its inputs. -/
def signerBad : Signer := fun _ _ _ _ => Except.error "Invalid private key"

def cliC1 : Fragment := ⟨none, none, none, some 30, none⟩

def envC1 : EnvMap := ⟨some "E", none, none, none, some "99", none⟩

/-- C1: the claim states CLI-over-environment precedence with the concrete
example CLI fragment with expiresIn 30 against environment keyId E and
expiresIn 99 resolving to expiresIn 30. The command-line resolution path
assigns the environment fragment over the already-resolved CLI options, so
the resolved configuration has expiresIn 99, not 30 (keyId is E as claimed,
since only the environment sets it). -/
theorem precedence_counterexample :
    runCommandLineMerge fsNone envC1 cliC1 =
      Except.ok ⟨some "E", none, none, some 99, some "ES256"⟩ ∧
    (some (99 : Int) ≠ some (30 : Int)) := by
  refine ⟨?_, by decide⟩
  rfl

/-- C1 (amended): configuration resolution in the command-line path applies
precedence environment fragment over CLI fragment over built-in defaults,
field by field; a field absent from the environment fragment falls through
to the CLI fragment and then to the defaults. -/
theorem precedence_env_over_cli (fs : Fs) (envm : EnvMap) (cli : Fragment) :
    ∃ out, runCommandLineMerge fs envm cli = Except.ok out ∧
      out.keyId = firstSet (validateEnvironmentVariables fs envm).keyId cli.keyId ∧
      out.teamId = firstSet (validateEnvironmentVariables fs envm).teamId cli.teamId ∧
      out.privateKey =
        firstSet (validateEnvironmentVariables fs envm).privateKey cli.privateKey ∧
      out.expiresIn =
        firstSet (validateEnvironmentVariables fs envm).expiresIn
          (firstSet cli.expiresIn (some 180)) ∧
      out.algorithm =
        firstSet (validateEnvironmentVariables fs envm).algorithm
          (firstSet cli.algorithm (some "ES256")) :=
  ⟨_, runCommandLineMerge_eq fs envm cli, rfl, rfl, rfl, rfl, rfl⟩

/-- C2: for every CLI fragment and environment, the command-line resolution
path never produces an error (in particular resolveConfig with a null config
file never throws), and a malformed expiration variable degrades to the
expiresIn field being omitted from the environment fragment. -/
theorem resolve_never_errors (fs : Fs) (envm : EnvMap) (cli : Fragment) :
    (∃ out, runCommandLineMerge fs envm cli = Except.ok out) ∧
    (∃ out, resolveConfig fs cli none = Except.ok out) ∧
    (∀ s, parseIntJS s = none →
      (validateEnvironmentVariables fs { envm with appleJwtExpiresIn := some s }).expiresIn
        = none) := by
  refine ⟨⟨_, runCommandLineMerge_eq fs envm cli⟩, ⟨_, resolveConfig_none fs cli⟩, ?_⟩
  intro s hs
  by_cases h : truthy (some s) <;>
    simp [validateEnvironmentVariables, h, hs]

/-- C2 witness: the parse-failure hypothesis holds for the string invalid. -/
theorem resolve_never_errors_witness :
    (validateEnvironmentVariables fsNone
        { appleKeyId := none, appleTeamId := none, applePrivateKey := none,
          applePrivateKeyPath := none, appleJwtExpiresIn := some "invalid",
          appleJwtAlgorithm := none }).expiresIn = none :=
  (resolve_never_errors fsNone
    ⟨none, none, none, none, none, none⟩ cliC1).2.2 "invalid" rfl

/-- C10: environment extraction treats an empty-string value of any of the
six consumed variables identically to that variable being unset; in
particular an empty direct private-key variable falls through to the path
variable branch. -/
theorem empty_env_vars_as_unset (fs : Fs) (e : EnvMap) :
    validateEnvironmentVariables fs { e with appleKeyId := some "" } =
      validateEnvironmentVariables fs { e with appleKeyId := none } ∧
    validateEnvironmentVariables fs { e with appleTeamId := some "" } =
      validateEnvironmentVariables fs { e with appleTeamId := none } ∧
    validateEnvironmentVariables fs { e with applePrivateKey := some "" } =
      validateEnvironmentVariables fs { e with applePrivateKey := none } ∧
    validateEnvironmentVariables fs { e with applePrivateKeyPath := some "" } =
      validateEnvironmentVariables fs { e with applePrivateKeyPath := none } ∧
    validateEnvironmentVariables fs { e with appleJwtExpiresIn := some "" } =
      validateEnvironmentVariables fs { e with appleJwtExpiresIn := none } ∧
    validateEnvironmentVariables fs { e with appleJwtAlgorithm := some "" } =
      validateEnvironmentVariables fs { e with appleJwtAlgorithm := none } := by
  refine ⟨?_, ?_, ?_, ?_, ?_, ?_⟩ <;>
    simp [validateEnvironmentVariables, truthy]

/-- C3: validation is short-circuiting in the fixed order keyId, teamId,
privateKey, expiresIn: the error names exactly the first failing field, a
single error is reported, an accepted configuration yields success, and
success implies every field was acceptable. -/
theorem validate_first_failing_field (c : Fragment) :
    (truthy c.keyId = false →
      validateConfig c = Except.error "Apple Key ID is required") ∧
    (truthy c.keyId = true → truthy c.teamId = false →
      validateConfig c = Except.error "Apple Team ID is required") ∧
    (truthy c.keyId = true → truthy c.teamId = true → truthy c.privateKey = false →
      validateConfig c = Except.error "Private key is required") ∧
    (truthy c.keyId = true → truthy c.teamId = true → truthy c.privateKey = true →
      expOutOfRange c = true →
      validateConfig c = Except.error "Expiration days must be between 1 and 365") ∧
    (truthy c.keyId = true → truthy c.teamId = true → truthy c.privateKey = true →
      expOutOfRange c = false → validateConfig c = Except.ok ()) ∧
    (validateConfig c = Except.ok () →
      truthy c.keyId = true ∧ truthy c.teamId = true ∧ truthy c.privateKey = true ∧
        expOutOfRange c = false) := by
  refine ⟨?_, ?_, ?_, ?_, ?_, ?_⟩
  · intro hk
    simp [validateConfig, hk]
  · intro hk ht
    simp [validateConfig, hk, ht]
  · intro hk ht hp
    simp [validateConfig, hk, ht, hp]
  · intro hk ht hp he
    cases hE : c.expiresIn with
    | none => simp [expOutOfRange, hE] at he
    | some n =>
      simp [expOutOfRange, hE] at he
      simp [validateConfig, hk, ht, hp, hE, he]
  · intro hk ht hp he
    cases hE : c.expiresIn with
    | none => simp [validateConfig, hk, ht, hp, hE]
    | some n =>
      simp [expOutOfRange, hE] at he
      simp [validateConfig, hk, ht, hp, hE, he.1, he.2]
  · intro hok
    by_cases hk : truthy c.keyId
    · by_cases ht : truthy c.teamId
      · by_cases hp : truthy c.privateKey
        · refine ⟨hk, ht, hp, ?_⟩
          cases hE : c.expiresIn with
          | none => simp [expOutOfRange, hE]
          | some n =>
            by_cases hr : n ≤ 0 ∨ 365 < n
            · simp [validateConfig, hk, ht, hp, hE, hr] at hok
            · simp [expOutOfRange, hE, hr]
        · simp [validateConfig, hk, ht, hp] at hok
      · simp [validateConfig, hk, ht] at hok
    · simp [validateConfig, hk] at hok

/-- C3 witness: one configuration per case, each decided concretely. -/
theorem validate_first_failing_field_witness :
    validateConfig ⟨none, some "T", some "P", none, none⟩ =
      Except.error "Apple Key ID is required" ∧
    validateConfig ⟨some "K", none, some "P", none, none⟩ =
      Except.error "Apple Team ID is required" ∧
    validateConfig ⟨some "K", some "T", none, some 400, none⟩ =
      Except.error "Private key is required" ∧
    validateConfig ⟨some "K", some "T", some "P", some 400, none⟩ =
      Except.error "Expiration days must be between 1 and 365" ∧
    validateConfig ⟨some "K", some "T", some "P", some 180, none⟩ = Except.ok () ∧
    (truthy (some "K") = true ∧ truthy (some "T") = true ∧ truthy (some "P") = true ∧
      expOutOfRange ⟨some "K", some "T", some "P", some 180, none⟩ = false) :=
  ⟨(validate_first_failing_field _).1 rfl,
   (validate_first_failing_field _).2.1 (by decide) rfl,
   (validate_first_failing_field _).2.2.1 (by decide) (by decide) rfl,
   (validate_first_failing_field _).2.2.2.1 (by decide) (by decide) (by decide) (by decide),
   (validate_first_failing_field _).2.2.2.2.1 (by decide) (by decide) (by decide) (by decide),
   (validate_first_failing_field
      (⟨some "K", some "T", some "P", some 180, none⟩ : Fragment)).2.2.2.2.2 rfl⟩

/-- C4: a present expiresIn outside the interval one to three-hundred-
sixty-five makes validation fail, and with the three string fields
acceptable the failure is exactly the expiration-range error; a present
in-range value never produces the expiration-range error. -/
theorem expiration_range_check (c : Fragment) (n : Int) (hE : c.expiresIn = some n) :
    ((n < 1 ∨ 365 < n) → ∀ u : Unit, validateConfig c ≠ Except.ok u) ∧
    ((1 ≤ n ∧ n ≤ 365) →
      validateConfig c ≠ Except.error "Expiration days must be between 1 and 365") ∧
    (truthy c.keyId = true → truthy c.teamId = true → truthy c.privateKey = true →
      (n < 1 ∨ 365 < n) →
      validateConfig c = Except.error "Expiration days must be between 1 and 365") := by
  have hr0 : ∀ m : Int, (m < 1 ∨ 365 < m) → (m ≤ 0 ∨ 365 < m) := by omega
  refine ⟨?_, ?_, ?_⟩
  · intro hout u
    by_cases hk : truthy c.keyId
    · by_cases ht : truthy c.teamId
      · by_cases hp : truthy c.privateKey
        · simp [validateConfig, hk, ht, hp, hE, hr0 n hout]
        · simp [validateConfig, hk, ht, hp]
      · simp [validateConfig, hk, ht]
    · simp [validateConfig, hk]
  · intro hin
    have hr : ¬(n ≤ 0 ∨ 365 < n) := by omega
    by_cases hk : truthy c.keyId
    · by_cases ht : truthy c.teamId
      · by_cases hp : truthy c.privateKey
        · simp [validateConfig, hk, ht, hp, hE, hr]
        · simp [validateConfig, hk, ht, hp]
      · simp [validateConfig, hk, ht]
    · simp [validateConfig, hk]
  · intro hk ht hp hout
    simp [validateConfig, hk, ht, hp, hE, hr0 n hout]

/-- C4 witness: the out-of-range value four-hundred fails with the range
error and the in-range value one-hundred-eighty does not. -/
theorem expiration_range_check_witness :
    validateConfig ⟨some "K", some "T", some "P", some 400, none⟩ =
      Except.error "Expiration days must be between 1 and 365" ∧
    validateConfig ⟨some "K", some "T", some "P", some 400, none⟩ ≠ Except.ok () ∧
    validateConfig ⟨some "K", some "T", some "P", some 180, none⟩ ≠
      Except.error "Expiration days must be between 1 and 365" :=
  ⟨(expiration_range_check _ 400 rfl).2.2 (by decide) (by decide) (by decide)
      (Or.inr (by decide)),
   (expiration_range_check _ 400 rfl).1 (Or.inr (by decide)) (),
   (expiration_range_check _ 180 rfl).2.1 ⟨by decide, by decide⟩⟩

/-- C5: private-key resolution fails with the not-found error naming the
path when the field looks like a file reference and the file is absent,
fails with the read-failure error wrapping the underlying reason when the
file exists but cannot be read, returns the file content on a successful
read, and otherwise returns the field verbatim. -/
theorem private_key_resolution (fs : Fs) (g : GenConfig) :
    (isFilePath g.privateKey = true → fs.pathExists g.privateKey = false →
      getPrivateKey fs g =
        Except.error ("Private key file not found: " ++ g.privateKey)) ∧
    (∀ e, isFilePath g.privateKey = true → fs.pathExists g.privateKey = true →
      fs.readFile g.privateKey = Except.error e →
      getPrivateKey fs g =
        Except.error ("Failed to read private key file: " ++ e)) ∧
    (∀ content, isFilePath g.privateKey = true → fs.pathExists g.privateKey = true →
      fs.readFile g.privateKey = Except.ok content →
      getPrivateKey fs g = Except.ok content) ∧
    (isFilePath g.privateKey = false → getPrivateKey fs g = Except.ok g.privateKey) := by
  refine ⟨?_, ?_, ?_, ?_⟩
  · intro hf hx
    simp [getPrivateKey, hf, hx]
  · intro e hf hx hr
    simp [getPrivateKey, hf, hx, hr]
  · intro content hf hx hr
    simp [getPrivateKey, hf, hx, hr]
  · intro hf
    simp [getPrivateKey, hf]

def gMissingKey : GenConfig := ⟨"K", "T", "./missing.pem", 180, "ES256"⟩

def gDeniedKey : GenConfig := ⟨"K", "T", "k.pem", 180, "ES256"⟩

def gRawKey : GenConfig := ⟨"K", "T", "RAWKEY", 180, "ES256"⟩

/-- C5 witness: a missing path-like key, an unreadable existing key file,
and a raw inline key, each resolved concretely. -/
theorem private_key_resolution_witness :
    getPrivateKey fsNone gMissingKey =
      Except.error ("Private key file not found: " ++ "./missing.pem") ∧
    getPrivateKey fsReadDenied gDeniedKey =
      Except.error ("Failed to read private key file: " ++ "Error: Permission denied") ∧
    getPrivateKey fsNone gRawKey = Except.ok "RAWKEY" :=
  ⟨(private_key_resolution fsNone gMissingKey).1 (by decide) rfl,
   (private_key_resolution fsReadDenied gDeniedKey).2.1 "Error: Permission denied"
      (by decide) (by decide) rfl,
   (private_key_resolution fsNone gRawKey).2.2.2 (by decide)⟩

/-- C6: for every clock value and configuration, expires-at equals issued-at
plus expiresInDays times 86400, and with expiresInDays at least one,
expires-at strictly exceeds issued-at. -/
theorem payload_expiration_invariant (now : Int) (g : GenConfig) :
    (createPayload now g).exp = (createPayload now g).iat + g.expiresIn * 86400 ∧
    (1 ≤ g.expiresIn → (createPayload now g).iat < (createPayload now g).exp) := by
  constructor
  · show now + g.expiresIn * (24 * 60 * 60) = now + g.expiresIn * 86400
    norm_num
  · intro h
    show now < now + g.expiresIn * (24 * 60 * 60)
    have h2 : (1 : Int) * (24 * 60 * 60) ≤ g.expiresIn * (24 * 60 * 60) := by
      apply mul_le_mul_of_nonneg_right h
      norm_num
    omega

/-- C6 witness: with the default one-hundred-eighty days the payload expires
strictly after it is issued. -/
theorem payload_expiration_invariant_witness :
    (createPayload 1000 gRawKey).iat < (createPayload 1000 gRawKey).exp :=
  (payload_expiration_invariant 1000 gRawKey).2 (by decide)

/-- C7: the claim states every error from validate, key resolution or token
building surfaces with the generation-stage wrapper message added. A
validation failure propagates from generateAppleJWT without that wrapper:
with an empty keyId the result is the bare required-key error, which is not
the wrapped form of itself. -/
theorem error_propagation_counterexample :
    generateAppleJWT fsNone signerOk 0 ⟨"", "T", "RAW", none, none⟩ =
      Except.error "Apple Key ID is required" ∧
    ("Apple Key ID is required" : String) ≠
      "JWT generation failed: " ++ "Apple Key ID is required" := by
  exact ⟨rfl, by decide⟩

/-- C7 (amended): a validation error surfaces completely unchanged, with no
wrapper; an error from key resolution or signing surfaces as the original
message with the generation-stage wrapper message prepended; and no partial
output exists: a successful result is exactly the complete token produced by
the signer on the fully built payload and header. -/
theorem error_propagation (fs : Fs) (sg : Signer) (now : Int) (c : JWTConfig) :
    (∀ e, validateConfig (toFragment c) = Except.error e →
      generateAppleJWT fs sg now c = Except.error e) ∧
    (∀ e, validateConfig (toFragment c) = Except.ok () →
      generateInner fs sg now (mkGenConfig c) = Except.error e →
      generateAppleJWT fs sg now c = Except.error ("JWT generation failed: " ++ e)) ∧
    (∀ t, generateAppleJWT fs sg now c = Except.ok t →
      validateConfig (toFragment c) = Except.ok () ∧
      ∃ pk, getPrivateKey fs (mkGenConfig c) = Except.ok pk ∧
        sg (createPayload now (mkGenConfig c)) pk (mkGenConfig c).algorithm
          (createHeader (mkGenConfig c)) = Except.ok t) := by
  refine ⟨?_, ?_, ?_⟩
  · intro e hv
    simp [generateAppleJWT, hv]
  · intro e hv hi
    simp [generateAppleJWT, hv, generate, hi]
  · intro t ht
    cases hv : validateConfig (toFragment c) with
    | error e => simp [generateAppleJWT, hv] at ht
    | ok u =>
      cases u
      refine ⟨rfl, ?_⟩
      simp [generateAppleJWT, hv, generate] at ht
      cases hi : generateInner fs sg now (mkGenConfig c) with
      | error e => simp [hi] at ht
      | ok t2 =>
        simp [hi] at ht
        cases hpk : getPrivateKey fs (mkGenConfig c) with
        | error e => simp [generateInner, hpk] at hi
        | ok pk =>
          refine ⟨pk, rfl, ?_⟩
          simp [generateInner, hpk] at hi
          rw [hi, ht]

/-- C7 witness: a validation error, a signing error and a successful run,
each evaluated concretely through generateAppleJWT. -/
theorem error_propagation_witness :
    generateAppleJWT fsNone signerOk 0 ⟨"", "T", "RAW", none, none⟩ =
      Except.error "Apple Key ID is required" ∧
    generateAppleJWT fsNone signerBad 0 ⟨"K", "T", "RAW", none, none⟩ =
      Except.error ("JWT generation failed: " ++ "Invalid private key") ∧
    (validateConfig (toFragment ⟨"K", "T", "RAW", none, none⟩) = Except.ok () ∧
      ∃ pk, getPrivateKey fsNone (mkGenConfig ⟨"K", "T", "RAW", none, none⟩) =
          Except.ok pk ∧
        signerOk (createPayload 0 (mkGenConfig ⟨"K", "T", "RAW", none, none⟩)) pk
          (mkGenConfig ⟨"K", "T", "RAW", none, none⟩).algorithm
          (createHeader (mkGenConfig ⟨"K", "T", "RAW", none, none⟩)) =
          Except.ok "h.p.s") :=
  ⟨(error_propagation fsNone signerOk 0 ⟨"", "T", "RAW", none, none⟩).1
      "Apple Key ID is required" rfl,
   (error_propagation fsNone signerBad 0 ⟨"K", "T", "RAW", none, none⟩).2.1
      "Invalid private key" rfl rfl,
   (error_propagation fsNone signerOk 0 ⟨"K", "T", "RAW", none, none⟩).2.2
      "h.p.s" rfl⟩

/-- C8: the built header consists of exactly the algorithm and key-identifier
fields copied from the configuration, the payload's issuer is the team
identifier, and a header or payload value is fully determined by exactly
those fields. -/
theorem header_payload_exact_fields (g : GenConfig) (now : Int) :
    (createHeader g).alg = g.algorithm ∧
    (createHeader g).kid = g.keyId ∧
    (createPayload now g).iss = g.teamId ∧
    (∀ h : JWTHeader, h = ⟨h.alg, h.kid⟩) ∧
    (∀ p : JWTPayload, p = ⟨p.iss, p.iat, p.exp⟩) :=
  ⟨rfl, rfl, rfl, fun _ => rfl, fun _ => rfl⟩

/-- C9: the payload is a deterministic function of the configuration and the
single clock reading: issued-at is that reading, expires-at is derived from
the same reading, and their difference is exactly expiresInDays times 86400
with no tolerance. -/
theorem payload_single_clock_reading (now : Int) (g : GenConfig) :
    (createPayload now g).iat = now ∧
    (createPayload now g).exp = now + g.expiresIn * 86400 ∧
    (createPayload now g).exp - (createPayload now g).iat = g.expiresIn * 86400 := by
  refine ⟨rfl, ?_, ?_⟩
  · show now + g.expiresIn * (24 * 60 * 60) = now + g.expiresIn * 86400
    norm_num
  · show now + g.expiresIn * (24 * 60 * 60) - now = g.expiresIn * 86400
    ring_nf

end AppleJWT
